import Mathlib

/-!
Verification of the Pedestrian-Shade-Routing repository.

The development shallowly embeds the two relevant source files:

* `src/dashboard.py` — the Shiny dashboard: the precomputed `EXAMPLE_ROUTES`
  table, the randomly estimated fallback result, the efficiency formula of
  `results_message` / `analysis_text`, the unguarded efficiency divisions of
  `metrics_table` / `tradeoff_plot`, and the rating thresholds.
* `src/notebooks/.ipynb_checkpoints/app-checkpoint.py` — the Streamlit app:
  `calculate_route_from_coords`, which resolves the destination stop, runs
  `nx.shortest_path` twice (weight `length`, weight `shade_weight`) over an
  undirected NetworkX multigraph, accumulates per-route totals from
  `graph[u][v][0]`, and assembles the comparison dictionary.

Real numbers of the Python code are modelled as rationals.  Paths are node
lists, exactly as `nx.shortest_path` returns them.
-/

namespace ShadeRouting

/-! ## Dashboard data model (`src/dashboard.py`) -/

/-- One entry of the dashboard's result dictionaries: the six numeric fields
every precomputed or estimated route result carries. -/
structure DashResult where
  shortest_length : ℚ
  shortest_shade : ℚ
  shadiest_length : ℚ
  shadiest_shade : ℚ
  detour_pct : ℚ
  shade_improvement : ℚ
deriving DecidableEq

/-- The `EXAMPLE_ROUTES` table of `src/dashboard.py` (lines 10-35): three
precomputed results keyed by (origin, destination, scenario). -/
def EXAMPLE_ROUTES : List ((String × String × String) × DashResult) :=
  [ (("Penn Campus", "40th St", "summer_midday"),
      ⟨315, 41/100, 352, 57/100, 117/10, 16/100⟩),
    (("Drexel Campus", "34th St", "summer_evening"),
      ⟨524, 21/100, 591, 65/100, 64/5, 44/100⟩),
    (("Clark Park", "46th St", "summer_morning"),
      ⟨1239, 59/100, 1424, 67/100, 149/10, 8/100⟩) ]

/-- Lookup of a key in `EXAMPLE_ROUTES` (`key in EXAMPLE_ROUTES` followed by
indexing, dashboard lines 173-174). -/
def lookupRoute (key : String × String × String) : Option DashResult :=
  (EXAMPLE_ROUTES.find? (fun p => decide (p.1 = key))).map (fun p => p.2)

/-- The estimated fallback result built in `server` (dashboard lines 178-187)
from the four random draws: `shortest_length` from `randint(300, 1200)`,
`shortest_shade` from `uniform(0.2, 0.6)`, `detour_pct` from `uniform(8, 15)`,
`shade_improvement` from `uniform(0.15, 0.40)`.  The shadiest length is
`int(shortest_length * (1 + detour_pct/100))` and the shadiest shade is
`shortest_shade + shade_improvement`. -/
def estimatedResult (sl : ℕ) (ss d si : ℚ) : DashResult :=
  { shortest_length := (sl : ℚ)
    shortest_shade := ss
    shadiest_length := ((Rat.floor ((sl : ℚ) * (1 + d / 100)) : ℤ) : ℚ)
    shadiest_shade := ss + si
    detour_pct := d
    shade_improvement := si }

/-- The result stored by the dashboard's calculate handler (lines 168-189):
the precomputed entry when the key is in `EXAMPLE_ROUTES`, otherwise the
estimated result built from the random draws. -/
def serverResult (key : String × String × String) (sl : ℕ) (ss d si : ℚ) :
    DashResult :=
  match lookupRoute key with
  | some r => r
  | none => estimatedResult sl ss d si

/-- The efficiency computed by `results_message` (dashboard line 202) and
`analysis_text` (line 319): `shade_improvement / (detour_pct / 100)` when
`detour_pct > 0`, else the numeric `0`. -/
def results_message_efficiency (r : DashResult) : ℚ :=
  if r.detour_pct > 0 then r.shade_improvement / (r.detour_pct / 100) else 0

/-- The rating thresholds of `analysis_text` (dashboard lines 321-332);
`results_message` (lines 204-215) uses the same thresholds with emoji
prefixes on the labels. -/
def analysisRating (efficiency : ℚ) : String :=
  if efficiency ≥ 3 then "EXCELLENT"
  else if efficiency ≥ 2 then "GOOD"
  else if efficiency ≥ 1 then "MODERATE"
  else "LOW"

/-- The unguarded efficiency division of `metrics_table` (dashboard
line 304). -/
def metrics_table_efficiency (r : DashResult) : ℚ :=
  r.shade_improvement / (r.detour_pct / 100)

/-- The unguarded efficiency division of `tradeoff_plot` (dashboard
line 388). -/
def tradeoff_plot_efficiency (r : DashResult) : ℚ :=
  r.shade_improvement / (r.detour_pct / 100)

/-! ## Routing engine data model (`app-checkpoint.py`) -/

/-- Attribute dictionary of one multigraph edge as the checkpoint app reads
it: `length`, an optional `shade_score` (read with `.get('shade_score', 0)`,
line 208), and the precomputed `shade_weight` attribute the shadiest search
uses as its weight key (line 218). -/
structure EdgeData where
  length : ℚ
  shade_score : Option ℚ
  shade_weight : ℚ
deriving DecidableEq

/-- An undirected NetworkX-style multigraph: node identifiers plus, for each
adjacent unordered node pair, the list of parallel edges keyed by position
(index 0 is the edge `graph[u][v][0]` returns). -/
structure Graph where
  nodes : List ℕ
  adj : List (ℕ × ℕ × List EdgeData)
deriving DecidableEq

/-- The parallel-edge list `graph[u][v]` of the undirected multigraph:
entries stored under either orientation of the pair. -/
def edgesBetween (g : Graph) (u v : ℕ) : List EdgeData :=
  (g.adj.filterMap (fun e =>
    if (e.1 = u ∧ e.2.1 = v) ∨ (e.1 = v ∧ e.2.1 = u) then some e.2.2
    else none)).flatten

/-- The representative edge `graph[u][v][0]` that the per-route total loops
read (checkpoint lines 205 and 224): always the parallel edge with key 0. -/
def edge0 (g : Graph) (u v : ℕ) : EdgeData :=
  (edgesBetween g u v).headD ⟨0, none, 0⟩

/-- The shade score the totals use: `edge_data.get('shade_score', 0)`
(checkpoint lines 208 and 227). -/
def shadeOf (e : EdgeData) : ℚ :=
  e.shade_score.getD 0

/-- Modelled from the spec: the Weight Calculator of spec §4.1, absent from
`src/` (the `shade_weight` attribute is precomputed in the graphml file by
out-of-repo code; `src/dashboard.py` lines 125-132 document the formula as
`cost = length × (1 - 0.3 × shade)`). -/
def shade_weighted_cost (e : EdgeData) (α : ℚ) : ℚ :=
  e.length * (1 - α * shadeOf e)

/-- An edge with the given length and shade score whose `shade_weight`
attribute was precomputed at the default coefficient α = 0.3, as the graph
loader supplies them. -/
def mkEdge (len shade : ℚ) : EdgeData :=
  ⟨len, some shade, shade_weighted_cost ⟨len, some shade, 0⟩ (3/10)⟩

/-- The `length` weight key of the shortest-route search (checkpoint
line 199). -/
def lengthWeight (e : EdgeData) : ℚ :=
  e.length

/-- The `shade_weight` weight key of the shadiest-route search (checkpoint
line 218). -/
def shadeWeight (e : EdgeData) : ℚ :=
  e.shade_weight

/-! ### Per-route totals (checkpoint lines 200-210 and 219-229) -/

/-- The edges the accumulation loop reads along a node-list path: for every
consecutive pair `(u, v)` the representative edge `graph[u][v][0]`. -/
def pathEdges (g : Graph) : List ℕ → List EdgeData
  | u :: v :: rest => edge0 g u v :: pathEdges g (v :: rest)
  | _ => []

/-- The accumulated route length: `length += edge_data['length']` over the
consecutive node pairs of the path. -/
def pathLength (g : Graph) : List ℕ → ℚ
  | u :: v :: rest => (edge0 g u v).length + pathLength g (v :: rest)
  | _ => 0

/-- The accumulated shade-weighted sum:
`shade_weighted += edge_data.get('shade_score', 0) * edge_length`. -/
def pathShadeWeighted (g : Graph) : List ℕ → ℚ
  | u :: v :: rest =>
      shadeOf (edge0 g u v) * (edge0 g u v).length + pathShadeWeighted g (v :: rest)
  | _ => 0

/-- The average shade of a route: `shade_weighted / length if length > 0
else 0` (checkpoint lines 210 and 229). -/
def avgShade (g : Graph) (p : List ℕ) : ℚ :=
  if pathLength g p > 0 then pathShadeWeighted g p / pathLength g p else 0

/-! ### Shortest-path search

The search itself lives in NetworkX, not in this repository; it is modelled
from spec §4.2. -/

/-- Neighbour list of a node with the parallel edges towards each
neighbour. -/
def neighborEdges (g : Graph) (u : ℕ) : List (ℕ × List EdgeData) :=
  g.adj.filterMap (fun e =>
    if e.1 = u then some (e.2.1, e.2.2)
    else if e.2.1 = u then some (e.1, e.2.2)
    else none)

/-- Relaxation weight of an unordered node pair: NetworkX multigraph
semantics take the minimum of the weight attribute over the parallel
edges. -/
def pairWeight (w : EdgeData → ℚ) : List EdgeData → ℚ
  | [] => 0
  | e :: es => es.foldl (fun m x => min m (w x)) (w e)

/-- Extraction of a minimum-cost frontier entry; on ties the earlier entry
wins, keeping the search deterministic. -/
def extractMin : List (ℚ × List ℕ) → Option ((ℚ × List ℕ) × List (ℚ × List ℕ))
  | [] => none
  | x :: xs =>
    match extractMin xs with
    | none => some (x, [])
    | some (m, rest) => if x.1 ≤ m.1 then some (x, xs) else some (m, x :: rest)

/-- Modelled from the spec: the label-setting (Dijkstra) loop of spec §4.2.
Frontier entries carry the tentative cost and the reversed node path; the
unvisited entry of minimum cost is settled, the target terminates the
search, and an emptied frontier means the target is unreachable.  Fuel
bounds the recursion; it is never exhausted on the graphs considered. -/
def dijkstraLoop (g : Graph) (w : EdgeData → ℚ) (target : ℕ) :
    ℕ → List ℕ → List (ℚ × List ℕ) → Option (List ℕ)
  | 0, _, _ => none
  | fuel + 1, visited, frontier =>
    match extractMin frontier with
    | none => none
    | some (entry, rest) =>
      match entry.2 with
      | [] => none
      | u :: tail =>
        if u ∈ visited then dijkstraLoop g w target fuel visited rest
        else if u = target then some (u :: tail).reverse
        else
          dijkstraLoop g w target fuel (u :: visited)
            (rest ++ (neighborEdges g u).filterMap (fun nb =>
              if nb.1 ∈ visited then none
              else some (entry.1 + pairWeight w nb.2, nb.1 :: u :: tail)))

/-- Modelled from the spec: `nx.shortest_path(graph, source, target,
weight=...)` of checkpoint lines 199 and 218 — a Dijkstra search returning
the node list of a minimum-weight route, `none` when no path exists or an
endpoint is not a graph node. -/
def nx_shortest_path (g : Graph) (w : EdgeData → ℚ) (source target : ℕ) :
    Option (List ℕ) :=
  if source ∈ g.nodes ∧ target ∈ g.nodes then
    dijkstraLoop g w target
      ((g.nodes.length + g.adj.length + 1) * (g.adj.length + 1) + 1)
      [] [(0, [source])]
  else none

/-! ### The comparison result (checkpoint lines 190-248) -/

/-- The `shade_per_meter_detour` value: the float-infinity sentinel of
checkpoint line 246 is modelled as a tagged value distinct from every
rational. -/
inductive EfficiencyValue where
  | inf
  | val (q : ℚ)
deriving DecidableEq

/-- The numeric fields of the dictionary `calculate_route_from_coords`
returns (checkpoint lines 190-247). -/
structure RouteComparison where
  shortest_path : List ℕ
  shortest_length_ft : ℚ
  shortest_length_m : ℚ
  shortest_shade_score : ℚ
  shadiest_path : List ℕ
  shadiest_length_ft : ℚ
  shadiest_length_m : ℚ
  shadiest_shade_score : ℚ
  length_increase_ft : ℚ
  length_increase_m : ℚ
  length_increase_pct : ℚ
  shade_improvement : ℚ
  shade_improvement_pct : ℚ
  shade_per_meter_detour : EfficiencyValue
deriving DecidableEq

/-- Resolution of the destination stop name in the SEPTA table (checkpoint
lines 183-188): `none` when no stop carries the name; the stop's snapped
network node otherwise (coordinate snapping itself is out of scope). -/
def findDestNode (septa : List (String × ℕ)) (name : String) : Option ℕ :=
  (septa.find? (fun p => decide (p.1 = name))).map (fun p => p.2)

/-- The engine `calculate_route_from_coords` (checkpoint lines 176-254): it
resolves the destination, runs the two searches, accumulates both routes'
totals from the key-0 edges, and assembles the comparison metrics; any
failure (missing stop, no path) yields `none`. -/
def calculate_route_from_coords (g : Graph) (origin_node : ℕ)
    (dest_name : String) (septa : List (String × ℕ)) :
    Option RouteComparison :=
  match findDestNode septa dest_name with
  | none => none
  | some dest_node =>
    match nx_shortest_path g lengthWeight origin_node dest_node with
    | none => none
    | some sp =>
      match nx_shortest_path g shadeWeight origin_node dest_node with
      | none => none
      | some dp =>
        let shortest_length := pathLength g sp
        let shortest_avg := avgShade g sp
        let shadiest_length := pathLength g dp
        let shadiest_avg := avgShade g dp
        let inc := shadiest_length - shortest_length
        some
          { shortest_path := sp
            shortest_length_ft := shortest_length
            shortest_length_m := shortest_length * (3048/10000)
            shortest_shade_score := shortest_avg
            shadiest_path := dp
            shadiest_length_ft := shadiest_length
            shadiest_length_m := shadiest_length * (3048/10000)
            shadiest_shade_score := shadiest_avg
            length_increase_ft := inc
            length_increase_m := inc * (3048/10000)
            length_increase_pct :=
              if shortest_length > 0 then inc / shortest_length * 100 else 0
            shade_improvement := shadiest_avg - shortest_avg
            shade_improvement_pct :=
              if shortest_avg > 0 then
                (shadiest_avg - shortest_avg) / shortest_avg * 100
              else 0
            shade_per_meter_detour :=
              if inc * (3048/10000) > 0 then
                EfficiencyValue.val
                  ((shadiest_avg - shortest_avg) / (inc * (3048/10000)))
              else EfficiencyValue.inf }

/-- The "Perfect!" classification of checkpoint lines 476-477: the result's
`shade_per_meter_detour` compares equal to the infinity sentinel. -/
def isPerfectResult (r : RouteComparison) : Bool :=
  decide (r.shade_per_meter_detour = EfficiencyValue.inf)

/-! ## Concrete instances used by the claims -/

/-- The direct edge of the spec's end-to-end scenario: length 100, shade
score 0. -/
def edgeDirect : EdgeData := mkEdge 100 0

/-- The shady parallel edge of the spec's end-to-end scenario: length 120,
shade score 0.8, precomputed weight `120 × (1 − 0.3 × 0.8) = 91.2`. -/
def edgeShady : EdgeData := mkEdge 120 (4/5)

/-- The end-to-end scenario graph: two nodes joined by the two parallel
edges, the direct edge stored under multigraph key 0. -/
def gScenario : Graph := ⟨[0, 1], [(0, 1, [edgeDirect, edgeShady])]⟩

/-- A SEPTA table with one destination stop snapped to node 1. -/
def septaScenario : List (String × ℕ) := [("B", 1)]

/-- A two-component graph: nodes 0 and 1 with no edge between them. -/
def gDisconnected : Graph := ⟨[0, 1], []⟩

/-- A SEPTA table whose only stop sits in the component opposite the
origin. -/
def septaDisconnected : List (String × ℕ) := [("34th St", 1)]

/-- A single-edge graph: one edge of length 100 and shade score 0.5. -/
def gSingle : Graph := ⟨[0, 1], [(0, 1, [mkEdge 100 (1/2)])]⟩

/-- A SEPTA table for the single-edge graph. -/
def septaSingle : List (String × ℕ) := [("st", 1)]

/-- A one-node graph whose only stop is the origin itself. -/
def gSelf : Graph := ⟨[0], []⟩

/-- A SEPTA table for the one-node graph. -/
def septaSelf : List (String × ℕ) := [("st", 0)]

/-! ## Helper lemmas -/

/-- The accumulated route length is the sum of the lengths of the key-0
edges along the path. -/
theorem pathLength_eq_sum (g : Graph) :
    ∀ p : List ℕ,
      pathLength g p = ((pathEdges g p).map (fun e => e.length)).sum
  | [] => by simp [pathLength, pathEdges]
  | [u] => by simp [pathLength, pathEdges]
  | u :: v :: rest => by
    simp only [pathLength, pathEdges, List.map_cons, List.sum_cons]
    rw [pathLength_eq_sum g (v :: rest)]

/-- The accumulated shade-weighted sum is the sum of `length × shade` of the
key-0 edges along the path. -/
theorem pathShadeWeighted_eq_sum (g : Graph) :
    ∀ p : List ℕ,
      pathShadeWeighted g p =
        ((pathEdges g p).map (fun e => e.length * shadeOf e)).sum
  | [] => by simp [pathShadeWeighted, pathEdges]
  | [u] => by simp [pathShadeWeighted, pathEdges]
  | u :: v :: rest => by
    simp only [pathShadeWeighted, pathEdges, List.map_cons, List.sum_cons]
    rw [pathShadeWeighted_eq_sum g (v :: rest)]
    ring

/-- A Dijkstra query whose source and target coincide pops the source first
and returns the zero-edge path, for any graph containing the node. -/
theorem nx_shortest_path_self (g : Graph) (w : EdgeData → ℚ) (s : ℕ)
    (hs : s ∈ g.nodes) :
    nx_shortest_path g w s s = some [s] := by
  unfold nx_shortest_path
  rw [if_pos ⟨hs, hs⟩]
  simp [dijkstraLoop, extractMin]

/-! ## Claim C1 -/

/-- C1 counterexample: the claim says that at `detour_pct = 0` the efficiency
is undefined/infinite and represented distinctly from a numeric `0`.  In
`results_message` (dashboard line 202) a zero-detour result with a strictly
positive shade improvement gets efficiency exactly the numeric `0` — the very
value a positive-detour, zero-improvement result also gets, so the two are
indistinguishable. -/
theorem c1_zero_detour_counterexample :
    results_message_efficiency ⟨315, 41/100, 315, 91/100, 0, 1/2⟩ = 0 ∧
    results_message_efficiency ⟨315, 41/100, 350, 41/100, 10, 0⟩ = 0 ∧
    results_message_efficiency ⟨315, 41/100, 315, 91/100, 0, 1/2⟩ =
      results_message_efficiency ⟨315, 41/100, 350, 41/100, 10, 0⟩ := by
  refine ⟨?_, ?_, ?_⟩ <;> norm_num [results_message_efficiency]

/-- C1 (amended): for every result, the dashboard efficiency equals
`shade_improvement / (detour_pct / 100)` when `detour_pct > 0`, and is the
numeric `0` (not a distinct undefined/infinite value) when
`detour_pct ≤ 0`. -/
theorem c1_efficiency_amended (r : DashResult) :
    (0 < r.detour_pct →
      results_message_efficiency r = r.shade_improvement / (r.detour_pct / 100)) ∧
    (r.detour_pct ≤ 0 → results_message_efficiency r = 0) := by
  constructor
  · intro h
    simp [results_message_efficiency, h]
  · intro h
    simp [results_message_efficiency, not_lt.mpr h]

/-- C1 witness: the amended theorem applied to the Penn Campus example
route, whose detour is 11.7 % and improvement 0.16, giving 160/117. -/
theorem c1_efficiency_amended_witness :
    results_message_efficiency ⟨315, 41/100, 352, 57/100, 117/10, 16/100⟩ =
      160/117 := by
  have h := (c1_efficiency_amended ⟨315, 41/100, 352, 57/100, 117/10, 16/100⟩).1
    (by norm_num)
  rw [h]
  norm_num

/-! ## Claim C2 -/

/-- C2: for every edge and coefficient `0 ≤ α ≤ 1`, the routing cost equals
`length × (1 − α × shade)`, and an edge of shade score 1 at the default
α = 0.3 costs `length × 0.7`. -/
theorem c2_weight_calculator (e : EdgeData) (α : ℚ) (_h0 : 0 ≤ α) (_h1 : α ≤ 1) :
    shade_weighted_cost e α = e.length * (1 - α * shadeOf e) ∧
    (shadeOf e = 1 → shade_weighted_cost e (3/10) = e.length * (7/10)) := by
  refine ⟨rfl, fun h => ?_⟩
  rw [shade_weighted_cost, h]
  ring

/-- C2 witness: the boundary instance — a fully shaded edge of length 100 at
α = 0.3 costs 70. -/
theorem c2_weight_calculator_witness :
    shade_weighted_cost (mkEdge 100 1) (3/10) = 70 := by
  have h := (c2_weight_calculator (mkEdge 100 1) (3/10)
    (by norm_num) (by norm_num)).2 (by norm_num [mkEdge, shadeOf])
  rw [h]
  norm_num [mkEdge]

/-! ## Claim C3 -/

/-- C3: the rating thresholds of `analysis_text` hold exactly as claimed,
and a 4.0 efficiency would indeed rate EXCELLENT — but on the end-to-end
two-parallel-edge scenario itself the code diverges from the claim: both
per-route total loops read the key-0 parallel edge (`graph[u][v][0]`), so
the engine reports detour 0 and shade improvement 0 instead of detour 20 %
and improvement 0.8, the dashboard efficiency of those numbers is the
numeric 0, and the rating is LOW, not EXCELLENT. -/
theorem c3_rating_thresholds_and_scenario :
    (∀ e : ℚ,
      (analysisRating e = "EXCELLENT" ↔ 3 ≤ e) ∧
      (analysisRating e = "GOOD" ↔ 2 ≤ e ∧ e < 3) ∧
      (analysisRating e = "MODERATE" ↔ 1 ≤ e ∧ e < 2) ∧
      (analysisRating e = "LOW" ↔ e < 1)) ∧
    analysisRating 4 = "EXCELLENT" ∧
    (calculate_route_from_coords gScenario 0 "B" septaScenario).map
      (fun r => (r.length_increase_pct, r.shade_improvement)) = some (0, 0) ∧
    results_message_efficiency ⟨100, 0, 100, 0, 0, 0⟩ = 0 ∧
    analysisRating 0 = "LOW" := by
  refine ⟨fun e => ?_, by norm_num [analysisRating], ?_,
    by norm_num [results_message_efficiency], by norm_num [analysisRating]⟩
  · unfold analysisRating
    split_ifs with h1 h2 h3
    · exact ⟨iff_of_true rfl h1,
        iff_of_false (by decide) (fun hc => by linarith [hc.2]),
        iff_of_false (by decide) (fun hc => by linarith [hc.2]),
        iff_of_false (by decide) (fun hc => by linarith)⟩
    · exact ⟨iff_of_false (by decide) (fun hc => h1 hc),
        iff_of_true rfl ⟨h2, not_le.mp h1⟩,
        iff_of_false (by decide) (fun hc => by linarith [hc.2]),
        iff_of_false (by decide) (fun hc => by linarith)⟩
    · exact ⟨iff_of_false (by decide) (fun hc => h1 hc),
        iff_of_false (by decide) (fun hc => h2 hc.1),
        iff_of_true rfl ⟨h3, not_le.mp h2⟩,
        iff_of_false (by decide) (fun hc => by linarith)⟩
    · exact ⟨iff_of_false (by decide) (fun hc => h1 hc),
        iff_of_false (by decide) (fun hc => h2 hc.1),
        iff_of_false (by decide) (fun hc => h3 hc.1),
        iff_of_true rfl (not_le.mp h3)⟩
  · norm_num [calculate_route_from_coords, findDestNode, septaScenario,
      List.find?, nx_shortest_path, dijkstraLoop, extractMin, neighborEdges,
      pairWeight, gScenario, edgeDirect, edgeShady, mkEdge, lengthWeight,
      shadeWeight, shade_weighted_cost, shadeOf, pathLength, pathShadeWeighted,
      avgShade, edge0, edgesBetween, List.filterMap_cons]

/-! ## Claim C4 -/

/-- C4: for every path, the average shade is the length-weighted mean
`Σ(length_i × shade_i) / Σ(length_i)` over the edges the loop reads, it is 0
when the total length is 0, and an edge with no shade score enters the mean
with shade score 0. -/
theorem c4_avg_shade_weighted_mean (g : Graph) (p : List ℕ) :
    (0 < pathLength g p →
      avgShade g p =
        ((pathEdges g p).map (fun e => e.length * shadeOf e)).sum /
          ((pathEdges g p).map (fun e => e.length)).sum) ∧
    (pathLength g p = 0 → avgShade g p = 0) ∧
    (∀ L w, shadeOf ⟨L, none, w⟩ = 0) := by
  refine ⟨fun h => ?_, fun h => ?_, fun L w => rfl⟩
  · rw [avgShade, if_pos h, pathShadeWeighted_eq_sum, pathLength_eq_sum]
  · rw [avgShade, if_neg (by rw [h]; exact lt_irrefl 0)]

/-- C4 witness: the weighted-mean equation instantiated on the scenario
graph's two-node path (total length 100 > 0), and the defaulted shade score
of a score-free edge. -/
theorem c4_avg_shade_weighted_mean_witness :
    avgShade gScenario [0, 1] =
      ((pathEdges gScenario [0, 1]).map (fun e => e.length * shadeOf e)).sum /
        ((pathEdges gScenario [0, 1]).map (fun e => e.length)).sum ∧
    shadeOf ⟨5, none, 5⟩ = 0 := by
  refine ⟨(c4_avg_shade_weighted_mean gScenario [0, 1]).1 ?_,
    (c4_avg_shade_weighted_mean gScenario [0, 1]).2.2 5 5⟩
  norm_num [pathLength, gScenario, edge0, edgesBetween, edgeDirect, edgeShady,
    mkEdge, List.filterMap_cons]

/-! ## Claim C5 -/

/-- C5: a query whose destination stop resolves to the origin node itself
succeeds with the zero-edge path `[s]` for both routes — not a "no path"
failure — and the result has total length 0, average shade 0, detour
percentage 0 and the Perfect classification. -/
theorem c5_source_equals_target (g : Graph) (s : ℕ) (name : String)
    (septa : List (String × ℕ)) (hs : s ∈ g.nodes)
    (hd : findDestNode septa name = some s) :
    ∃ r, calculate_route_from_coords g s name septa = some r ∧
      r.shortest_path = [s] ∧ r.shadiest_path = [s] ∧
      r.shortest_length_ft = 0 ∧ r.shortest_shade_score = 0 ∧
      r.length_increase_pct = 0 ∧ isPerfectResult r = true := by
  refine ⟨⟨[s], 0, 0, 0, [s], 0, 0, 0, 0, 0, 0, 0, 0, EfficiencyValue.inf⟩,
    ?_, rfl, rfl, rfl, rfl, rfl, rfl⟩
  simp only [calculate_route_from_coords, hd,
    nx_shortest_path_self g lengthWeight s hs,
    nx_shortest_path_self g shadeWeight s hs]
  norm_num [pathLength, avgShade, pathShadeWeighted]

/-- C5 witness: the degenerate query on the one-node graph, where the only
stop is the origin itself. -/
theorem c5_source_equals_target_witness :
    (calculate_route_from_coords gSelf 0 "st" septaSelf).map
      (fun r => (r.shortest_path, r.shortest_length_ft, r.shortest_shade_score,
        r.length_increase_pct, isPerfectResult r)) =
      some ([0], 0, 0, 0, true) := by
  obtain ⟨r, hr, h1, h2, h3, h4, h5, h6⟩ :=
    c5_source_equals_target gSelf 0 "st" septaSelf (by simp [gSelf])
      (by simp [findDestNode, septaSelf, List.find?])
  rw [hr]
  simp [h1, h3, h4, h5, h6]

/-! ## Claim C6 -/

/-- C6: the engine is a deterministic function of its inputs — two
invocations on the identical graph, origin node, destination name and stop
table produce identical comparison results.  The embedding of
`calculate_route_from_coords` needs no input beyond these (in particular no
randomness; the dashboard's random estimated fallback sits outside the
engine). -/
theorem c6_engine_deterministic (g : Graph) (o : ℕ) (name : String)
    (septa : List (String × ℕ)) (r₁ r₂ : Option RouteComparison)
    (h₁ : calculate_route_from_coords g o name septa = r₁)
    (h₂ : calculate_route_from_coords g o name septa = r₂) :
    r₁ = r₂ :=
  h₁.symm.trans h₂

/-- C6 witness: the two invocations on the end-to-end scenario query agree. -/
theorem c6_engine_deterministic_witness :
    calculate_route_from_coords gScenario 0 "B" septaScenario =
      calculate_route_from_coords gScenario 0 "B" septaScenario :=
  c6_engine_deterministic gScenario 0 "B" septaScenario _ _ rfl rfl

/-! ## Claim C7 -/

/-- C7 counterexample: the claim says unreachable targets and absent
identifiers surface as distinct failure values (`NoPathFound` versus
`InvalidNode`).  In the code both `return None` (checkpoint lines 184-185
and 250-251): the query across the two disconnected components and the
query for a stop name absent from the table produce the very same value,
so the failure kinds are not distinct. -/
theorem c7_failures_not_distinct_counterexample :
    calculate_route_from_coords gDisconnected 0 "34th St" septaDisconnected =
      none ∧
    calculate_route_from_coords gDisconnected 0 "absent stop" septaDisconnected =
      none ∧
    calculate_route_from_coords gDisconnected 0 "34th St" septaDisconnected =
      calculate_route_from_coords gDisconnected 0 "absent stop"
        septaDisconnected := by
  have hfd1 : findDestNode septaDisconnected "34th St" = some 1 := by decide
  have hfd2 : findDestNode septaDisconnected "absent stop" = none := by decide
  have h1 : calculate_route_from_coords gDisconnected 0 "34th St"
      septaDisconnected = none := by
    norm_num [calculate_route_from_coords, hfd1, nx_shortest_path,
      dijkstraLoop, extractMin, neighborEdges, pairWeight, gDisconnected,
      lengthWeight, shadeWeight]
  have h2 : calculate_route_from_coords gDisconnected 0 "absent stop"
      septaDisconnected = none := by
    simp only [calculate_route_from_coords, hfd2]
  exact ⟨h1, h2, h1.trans h2.symm⟩

/-- C7 (amended): both failure kinds are surfaced as the same explicit
result value `none` — a defined outcome, not a crash: a destination name
absent from the stop table yields `none`, and an unreachable destination
(the length-weighted search finds no path) also yields `none`. -/
theorem c7_failures_amended (g : Graph) (o : ℕ) (name : String)
    (septa : List (String × ℕ)) :
    (findDestNode septa name = none →
      calculate_route_from_coords g o name septa = none) ∧
    (∀ d, findDestNode septa name = some d →
      nx_shortest_path g lengthWeight o d = none →
      calculate_route_from_coords g o name septa = none) := by
  constructor
  · intro h
    simp only [calculate_route_from_coords, h]
  · intro d hd hnp
    simp only [calculate_route_from_coords, hd, hnp]

/-- C7 witness: the amended theorem applied to a missing stop name on the
single-edge graph and to the disconnected-components query. -/
theorem c7_failures_amended_witness :
    calculate_route_from_coords gSingle 0 "no such stop" septaSingle = none ∧
    calculate_route_from_coords gDisconnected 0 "34th St" septaDisconnected =
      none := by
  constructor
  · exact (c7_failures_amended gSingle 0 "no such stop" septaSingle).1
      (by decide)
  · exact (c7_failures_amended gDisconnected 0 "34th St" septaDisconnected).2 1
      (by decide)
      (by norm_num [nx_shortest_path, dijkstraLoop, extractMin, neighborEdges,
        gDisconnected, lengthWeight])

/-! ## Claim C8 -/

/-- C8: evaluation at the failing input.  On the two-parallel-edge graph the
shadiest-route search relaxes the node pair at the parallel-edge minimum
weight 91.2 — the shady edge's weight, so the search does traverse the shady
edge — yet the totals are read from the representative key-0 edge
`graph[u][v][0]` (checkpoint lines 224-227): the reported shadiest route
carries length 100 and shade 0, the direct edge's data, not the traversed
shady edge's length 120 and shade 0.8. -/
theorem c8_parallel_edges_collapsed_in_totals :
    pairWeight shadeWeight (edgesBetween gScenario 0 1) = 456/5 ∧
    edgeShady.shade_weight = 456/5 ∧
    edgeDirect.shade_weight = 100 ∧
    edgeShady.length = 120 ∧
    shadeOf edgeShady = 4/5 ∧
    (calculate_route_from_coords gScenario 0 "B" septaScenario).map
      (fun r => (r.shadiest_path, r.shadiest_length_ft,
        r.shadiest_shade_score)) = some ([0, 1], 100, 0) := by
  refine ⟨?_, ?_, ?_, ?_, ?_, ?_⟩ <;>
    norm_num [calculate_route_from_coords, findDestNode, septaScenario,
      List.find?, nx_shortest_path, dijkstraLoop, extractMin, neighborEdges,
      pairWeight, gScenario, edgeDirect, edgeShady, mkEdge, lengthWeight,
      shadeWeight, shade_weighted_cost, shadeOf, pathLength, pathShadeWeighted,
      avgShade, edge0, edgesBetween, List.filterMap_cons]

/-! ## Claim C9 -/

/-- C9 counterexample: the claim says no unit conversion is applied to any
reported length.  On the single-edge graph the raw edge-length sum of the
shortest route is 100, yet the result's `shortest_length_m` field reports
`100 × 0.3048 = 30.48` (checkpoint line 214) — a feet-to-metres
conversion. -/
theorem c9_unit_conversion_counterexample :
    (calculate_route_from_coords gSingle 0 "st" septaSingle).map
      (fun r => (pathLength gSingle r.shortest_path, r.shortest_length_m)) =
      some (100, 762/25) ∧
    (100 : ℚ) ≠ 762/25 := by
  constructor
  · norm_num [calculate_route_from_coords, findDestNode, septaSingle,
      List.find?, nx_shortest_path, dijkstraLoop, extractMin, neighborEdges,
      pairWeight, gSingle, mkEdge, lengthWeight, shadeWeight,
      shade_weighted_cost, shadeOf, pathLength, pathShadeWeighted, avgShade,
      edge0, edgesBetween, List.filterMap_cons]
  · norm_num

/-- C9 (amended): the `_ft` totals are the raw edge-length sums in the
graph's units, and every `_m` length the engine reports is that raw sum
multiplied by the 0.3048 feet-to-metres factor. -/
theorem c9_length_totals_amended (g : Graph) (o : ℕ) (name : String)
    (septa : List (String × ℕ)) (r : RouteComparison)
    (h : calculate_route_from_coords g o name septa = some r) :
    r.shortest_length_ft = pathLength g r.shortest_path ∧
    r.shadiest_length_ft = pathLength g r.shadiest_path ∧
    r.shortest_length_m = r.shortest_length_ft * (3048/10000) ∧
    r.shadiest_length_m = r.shadiest_length_ft * (3048/10000) ∧
    r.length_increase_m = r.length_increase_ft * (3048/10000) := by
  simp only [calculate_route_from_coords] at h
  split at h
  · exact absurd h (by simp)
  · split at h
    · exact absurd h (by simp)
    · split at h
      · exact absurd h (by simp)
      · injection h with h
        subst h
        exact ⟨rfl, rfl, rfl, rfl, rfl⟩

/-- C9 witness: the amended theorem applied to the single-edge query. -/
theorem c9_length_totals_amended_witness :
    (calculate_route_from_coords gSingle 0 "st" septaSingle).map
      (fun r => r.shortest_length_m) =
    (calculate_route_from_coords gSingle 0 "st" septaSingle).map
      (fun r => r.shortest_length_ft * (3048/10000)) := by
  cases hc : calculate_route_from_coords gSingle 0 "st" septaSingle with
  | none => rfl
  | some r =>
    have h := c9_length_totals_amended gSingle 0 "st" septaSingle r hc
    simp [h.2.2.1]

/-! ## Claim C10 -/

/-- C10: every result the dashboard server stores has a strictly positive
`detour_pct` — each precomputed example carries 11.7, 12.8 or 14.9, and an
estimated result draws `detour_pct` from `uniform(8, 15)` — so the
unguarded divisions by `detour_pct / 100` in `metrics_table` and
`tradeoff_plot` have a nonzero divisor, and the division genuinely inverts
the multiplication by `detour_pct / 100`. -/
theorem c10_detour_pct_positive (key : String × String × String) (sl : ℕ)
    (ss d si : ℚ) (h8 : 8 ≤ d) (_h15 : d < 15) :
    0 < (serverResult key sl ss d si).detour_pct ∧
    (serverResult key sl ss d si).detour_pct / 100 ≠ 0 ∧
    metrics_table_efficiency (serverResult key sl ss d si) *
      ((serverResult key sl ss d si).detour_pct / 100) =
      (serverResult key sl ss d si).shade_improvement ∧
    tradeoff_plot_efficiency (serverResult key sl ss d si) =
      metrics_table_efficiency (serverResult key sl ss d si) := by
  have hpos : 0 < (serverResult key sl ss d si).detour_pct := by
    rw [serverResult]
    cases hl : lookupRoute key with
    | none =>
      have : (0 : ℚ) < d := by linarith
      simpa [estimatedResult] using this
    | some r =>
      simp only [hl]
      rw [lookupRoute] at hl
      obtain ⟨p, hfind, rfl⟩ := Option.map_eq_some'.mp hl
      have hmem := List.mem_of_find?_eq_some hfind
      fin_cases hmem <;> norm_num
  have hne : (serverResult key sl ss d si).detour_pct / 100 ≠ 0 :=
    div_ne_zero (ne_of_gt hpos) (by norm_num)
  refine ⟨hpos, hne, ?_, rfl⟩
  rw [metrics_table_efficiency, div_mul_cancel₀]
  exact hne

/-- C10 witness: the bound applied to the Penn Campus example key with an
in-range draw of 10. -/
theorem c10_detour_pct_positive_witness :
    0 < (serverResult ("Penn Campus", "40th St", "summer_midday") 400 (2/5)
      10 (1/4)).detour_pct :=
  (c10_detour_pct_positive ("Penn Campus", "40th St", "summer_midday") 400
    (2/5) 10 (1/4) (by norm_num) (by norm_num)).1

end ShadeRouting
